import Mathlib

set_option maxRecDepth 100000

/-
Verification of `src/grid/common/Units.hpp` (opm-grid).

The header defines a table of `double` unit constants (namespaces
`Dune::prefix`, `Dune::unit`, `Dune::units`) and the conversion helpers
`convert::from` / `convert::to` together with `square` / `cubic`.

Every C++ `double` value is modelled as an exact rational number, and every
C++ arithmetic operation on doubles is modelled as the exact rational
operation followed by `fround`, IEEE-754 binary64 rounding to nearest with
ties to even (53-bit significand, unbounded exponent).  All values occurring
in this development lie far inside the binary64 normal range
(between about 1e-21 and 3.2e7 in magnitude), where binary64 arithmetic
never overflows or goes subnormal, so rounding with unbounded exponent
agrees bit-for-bit with actual IEEE-754 double arithmetic.  Decimal literals
of the source are modelled by `dlit`, correct rounding of the written
decimal value, which is what the C++ compiler produces for these literals.

Batteries marks `Rat.mul`, `Rat.div` and `Rat.sub` `@[irreducible]`, which
blocks kernel evaluation in `decide`; the exact rational operations are
therefore spelled out on numerators and denominators via `mkRat`.
-/

namespace Dune

/-- Exact rational product, written via `mkRat` so that it evaluates in the
kernel. -/
def qmul (x y : ℚ) : ℚ := mkRat (x.num * y.num) (x.den * y.den)

/-- Exact rational quotient (junk value `0` when `y = 0`), written via
`mkRat` so that it evaluates in the kernel. -/
def qdiv (x y : ℚ) : ℚ :=
  mkRat (if 0 ≤ y.num then x.num * (y.den : ℤ) else -(x.num * (y.den : ℤ)))
    (x.den * y.num.natAbs)

/-- Exact rational difference, written via `mkRat` so that it evaluates in
the kernel. -/
def qsub (x y : ℚ) : ℚ := mkRat (x.num * (y.den : ℤ) - y.num * (x.den : ℤ)) (x.den * y.den)

/-- Fuel-based floor of the base-2 logarithm of a natural number
(`nlog2 fuel n = Nat.log2 n` whenever `n < 2 ^ fuel`); written with explicit
fuel so that it reduces by structural recursion in the kernel. -/
def nlog2 : ℕ → ℕ → ℕ
  | 0, _ => 0
  | fuel + 1, n => if n < 2 then 0 else nlog2 fuel (n / 2) + 1

/-- `qLtPow2 a k` decides `a < 2 ^ k` (for `k : ℤ`) by integer
cross-multiplication of the numerator and denominator of `a`. -/
def qLtPow2 (a : ℚ) (k : ℤ) : Bool :=
  if 0 ≤ k then a.num < (a.den : ℤ) * ((2 ^ k.toNat : ℕ) : ℤ)
  else a.num * ((2 ^ (-k).toNat : ℕ) : ℤ) < (a.den : ℤ)

/-- IEEE-754 binary64 rounding of a positive rational `a` to nearest, ties
to even: find the exponent `e2` with `2 ^ (e2 + 52) ≤ a < 2 ^ (e2 + 53)`,
round `a / 2 ^ e2` to the nearest integer (ties to the even integer), and
scale back.  The exponent is unbounded, which coincides with binary64 on the
normal range. -/
def froundPos (a : ℚ) : ℚ :=
  let n : ℕ := a.num.toNat
  let d : ℕ := a.den
  let e0 : ℤ := (nlog2 256 n : ℤ) - (nlog2 256 d : ℤ) - 52
  let e1 : ℤ := if qLtPow2 a (e0 + 52) then e0 - 1 else e0
  let e2 : ℤ := if qLtPow2 a (e1 + 53) then e1 else e1 + 1
  let N : ℤ := if 0 ≤ e2 then (n : ℤ) else (n : ℤ) * ((2 ^ (-e2).toNat : ℕ) : ℤ)
  let D : ℤ := if 0 ≤ e2 then (d : ℤ) * ((2 ^ e2.toNat : ℕ) : ℤ) else (d : ℤ)
  let q : ℤ := N / D
  let r : ℤ := N % D
  let s : ℤ := if 2 * r < D then q
               else if D < 2 * r then q + 1
               else if q % 2 = 0 then q else q + 1
  if 0 ≤ e2 then mkRat (s * ((2 ^ e2.toNat : ℕ) : ℤ)) 1 else mkRat s (2 ^ (-e2).toNat)

/-- IEEE-754 binary64 rounding to nearest, ties to even, of an arbitrary
rational (sign-symmetric, `fround 0 = 0`). -/
def fround (x : ℚ) : ℚ :=
  if x = 0 then 0 else if 0 < x then froundPos x else Rat.neg (froundPos (Rat.neg x))

/-- One C++ `double` multiplication: exact product, then binary64
rounding. -/
def fmul (x y : ℚ) : ℚ := fround (qmul x y)

/-- One C++ `double` division: exact quotient, then binary64 rounding. -/
def fdiv (x y : ℚ) : ℚ := fround (qdiv x y)

/-- The `double` denoted by the decimal literal `m * 10 ^ (-k)` in the C++
source: the written decimal value, correctly rounded to binary64. -/
def dlit (m : ℤ) (k : ℕ) : ℚ := fround (mkRat m (10 ^ k))

namespace prefixes

/-- `Dune::prefix::micro = 1.0e-6`. -/
def micro : ℚ := dlit 1 6

/-- `Dune::prefix::milli = 1.0e-3`. -/
def milli : ℚ := dlit 1 3

/-- `Dune::prefix::centi = 1.0e-2`. -/
def centi : ℚ := dlit 1 2

/-- `Dune::prefix::deci = 1.0e-1`. -/
def deci : ℚ := dlit 1 1

/-- `Dune::prefix::kilo = 1.0e3`. -/
def kilo : ℚ := dlit 1000 0

/-- `Dune::prefix::mega = 1.0e6`. -/
def mega : ℚ := dlit 1000000 0

/-- `Dune::prefix::giga = 1.0e9`. -/
def giga : ℚ := dlit 1000000000 0

end prefixes

/-- `Dune::unit::square<T>`: `v * v`, generic over any type with
multiplication. -/
def square {T : Type} [Mul T] (v : T) : T := v * v

/-- `Dune::unit::cubic<T>`: `v * v * v`, generic over any type with
multiplication. -/
def cubic {T : Type} [Mul T] (v : T) : T := v * v * v

/-- `square` instantiated at `double`: one rounded multiplication. -/
def squareD (v : ℚ) : ℚ := fmul v v

/-- `cubic` instantiated at `double`: `(v * v) * v`, two rounded
multiplications, left-associated as in C++. -/
def cubicD (v : ℚ) : ℚ := fmul (fmul v v) v

namespace unit

/-- `Dune::unit::meter = 1`. -/
def meter : ℚ := mkRat 1 1

/-- `Dune::unit::inch = 2.54 * prefix::centi*meter`. -/
def inch : ℚ := fmul (fmul (dlit 254 2) prefixes.centi) meter

/-- `Dune::unit::feet = 12 * inch`. -/
def feet : ℚ := fmul (dlit 12 0) inch

/-- `Dune::unit::second = 1`. -/
def second : ℚ := mkRat 1 1

/-- `Dune::unit::minute = 60 * second`. -/
def minute : ℚ := fmul (dlit 60 0) second

/-- `Dune::unit::hour = 60 * minute`. -/
def hour : ℚ := fmul (dlit 60 0) minute

/-- `Dune::unit::day = 24 * hour`. -/
def day : ℚ := fmul (dlit 24 0) hour

/-- `Dune::unit::year = 365 * day`. -/
def year : ℚ := fmul (dlit 365 0) day

/-- `Dune::unit::kilogram = 1`. -/
def kilogram : ℚ := mkRat 1 1

/-- `Dune::unit::pound = 0.45359237 * kilogram`. -/
def pound : ℚ := fmul (dlit 45359237 8) kilogram

/-- `Dune::unit::gravity = 9.80665 * meter/square(second)`. -/
def gravity : ℚ := fdiv (fmul (dlit 980665 5) meter) (squareD second)

/-- `Dune::unit::Newton = kilogram*meter / square(second)`. -/
def Newton : ℚ := fdiv (fmul kilogram meter) (squareD second)

/-- `Dune::unit::lbf = pound * gravity`. -/
def lbf : ℚ := fmul pound gravity

/-- `Dune::unit::Pascal = Newton / square(meter)`. -/
def Pascal : ℚ := fdiv Newton (squareD meter)

/-- `Dune::unit::barsa = 100000 * Pascal`. -/
def barsa : ℚ := fmul (dlit 100000 0) Pascal

/-- `Dune::unit::atm = 101325 * Pascal`. -/
def atm : ℚ := fmul (dlit 101325 0) Pascal

/-- `Dune::unit::psia = lbf / square(inch)`. -/
def psia : ℚ := fdiv lbf (squareD inch)

/-- `Dune::unit::Pas = Pascal * second`. -/
def Pas : ℚ := fmul Pascal second

/-- `Dune::unit::Poise = prefix::deci*Pas`. -/
def Poise : ℚ := fmul prefixes.deci Pas

/-- Anonymous-namespace scratch `p_grad = atm / (prefix::centi*meter)`. -/
def p_grad : ℚ := fdiv atm (fmul prefixes.centi meter)

/-- Anonymous-namespace scratch `area = square(prefix::centi*meter)`. -/
def area : ℚ := squareD (fmul prefixes.centi meter)

/-- Anonymous-namespace scratch `flux = cubic(prefix::centi*meter) / second`. -/
def flux : ℚ := fdiv (cubicD (fmul prefixes.centi meter)) second

/-- Anonymous-namespace scratch `velocity = flux / area`. -/
def velocity : ℚ := fdiv flux area

/-- Anonymous-namespace scratch `visc = prefix::centi*Poise`. -/
def visc : ℚ := fmul prefixes.centi Poise

/-- `Dune::unit::darcy = (velocity * visc) / p_grad`. -/
def darcy : ℚ := fdiv (fmul velocity visc) p_grad

end unit

namespace convert

/-- `Dune::unit::convert::from(q, unit) = q * unit` at `double`. -/
def fromExternal (q u : ℚ) : ℚ := fmul q u

/-- `Dune::unit::convert::to(q, unit) = q / unit` at `double` (`to` is a
reserved token in Lean, hence the name). -/
def toInternal (q u : ℚ) : ℚ := fdiv q u

/-- `to` with its floating-point failure mode made explicit: per the spec,
`to` fails (yields a non-finite `double`) exactly when `unit` is zero;
`toChecked` returns `none` in that case and the rounded quotient
otherwise. -/
def toChecked (q u : ℚ) : Option ℚ :=
  if u = 0 then none else some (fdiv q u)

end convert

namespace units

/-- `Dune::units::MILLIDARCY = 9.86923e-16`. -/
def MILLIDARCY : ℚ := dlit 986923 21

/-- `Dune::units::VISCOSITY_UNIT = 1e-3`. -/
def VISCOSITY_UNIT : ℚ := dlit 1 3

/-- `Dune::units::DAYS2SECONDS = 86400`. -/
def DAYS2SECONDS : ℚ := dlit 86400 0

/-- `Dune::units::FEET = 0.30479999798832`. -/
def FEET : ℚ := dlit 30479999798832 14

/-- `Dune::units::WELL_INDEX_UNIT = VISCOSITY_UNIT/(DAYS2SECONDS*1e5)`. -/
def WELL_INDEX_UNIT : ℚ := fdiv VISCOSITY_UNIT (fmul DAYS2SECONDS (dlit 100000 0))

end units

/-- The named unit constants of the `Dune::unit` table. -/
def tableUnits : List ℚ :=
  [unit.meter, unit.inch, unit.feet, unit.second, unit.minute, unit.hour,
   unit.day, unit.year, unit.kilogram, unit.pound, unit.gravity, unit.Newton,
   unit.lbf, unit.Pascal, unit.barsa, unit.atm, unit.psia, unit.Pas,
   unit.Poise, unit.darcy]

-- Cross-checks of the embedding against the exact binary64 values of the
-- constants (numerator/denominator pairs of the IEEE-754 doubles computed
-- by the C++ expressions).
example : prefixes.micro = mkRat 4722366482869645 4722366482869645213696 := by decide
example : prefixes.milli = mkRat 1152921504606847 1152921504606846976 := by decide
example : prefixes.centi = mkRat 5764607523034235 576460752303423488 := by decide
example : prefixes.deci = mkRat 3602879701896397 36028797018963968 := by decide
example : unit.inch = mkRat 7321051554253479 288230376151711744 := by decide
example : unit.feet = mkRat 5490788665690109 18014398509481984 := by decide
example : unit.minute = mkRat 60 1 := by decide
example : unit.hour = mkRat 3600 1 := by decide
example : unit.day = mkRat 86400 1 := by decide
example : unit.year = mkRat 31536000 1 := by decide
example : unit.pound = mkRat 8171193714040401 18014398509481984 := by decide
example : unit.gravity = mkRat 5520653160719109 562949953421312 := by decide
example : unit.lbf = mkRat 5008252302237143 1125899906842624 := by decide
example : unit.barsa = mkRat 100000 1 := by decide
example : unit.atm = mkRat 101325 1 := by decide
example : unit.psia = mkRat 7580865814531991 1099511627776 := by decide
example : unit.Poise = mkRat 3602879701896397 36028797018963968 := by decide
example : unit.p_grad = mkRat 10132500 1 := by decide
example : unit.area = mkRat 7378697629483821 73786976294838206464 := by decide
example : unit.flux = mkRat 2361183241434823 2361183241434822606848 := by decide
example : unit.velocity = mkRat 1441151880758559 144115188075855872 := by decide
example : unit.visc = mkRat 1152921504606847 1152921504606846976 := by decide
example : unit.darcy = mkRat 1221751827570077 1237940039285380274899124224 := by decide
example : units.MILLIDARCY = mkRat 5004294133316179 5070602400912917605986812821504 := by decide
example : units.FEET = mkRat 686348578681363 2251799813685248 := by decide
example : units.WELL_INDEX_UNIT = mkRat 4584963108464371 39614081257132168796771975168 := by decide


/-- C1 (counterexample): the round-trip law `to(from(q, u), u) == q` fails,
as stated, at the table constant `u = pound` with the representative
quantity `q = 1e6`: the multiply rounds `1e6 * pound` and the divide rounds
again, landing one ulp below `1e6`. -/
theorem C1_roundtrip_counterexample :
    unit.pound ∈ tableUnits ∧
    convert.toInternal (convert.fromExternal (mkRat 1000000 1) unit.pound) unit.pound ≠
      mkRat 1000000 1 := by decide

/-- C1 (amended): for every unit constant `u` of the table,
`to(from(q, u), u) == q` holds exactly for the representative quantities
`q ∈ {0.0, 1.0, -1.0, 1e-6}`; for `q = 1e6` it holds for every table
constant except `pound` and `gravity`, where the rounded multiply/divide
pair is off by one ulp. -/
theorem C1_roundtrip_amended :
    (∀ u ∈ tableUnits, ∀ q ∈ [mkRat 0 1, mkRat 1 1, mkRat (-1) 1, dlit 1 6],
      convert.toInternal (convert.fromExternal q u) u = q) ∧
    (∀ u ∈ tableUnits, u ≠ unit.pound → u ≠ unit.gravity →
      convert.toInternal (convert.fromExternal (mkRat 1000000 1) u) u = mkRat 1000000 1) := by
  decide

/-- Witness for C1 (amended): the round-trip law instantiated at `darcy`
with `q = -1.0` and at `atm` with `q = 1e6`. -/
theorem C1_roundtrip_amended_witness :
    convert.toInternal (convert.fromExternal (mkRat (-1) 1) unit.darcy) unit.darcy =
      mkRat (-1) 1 ∧
    convert.toInternal (convert.fromExternal (mkRat 1000000 1) unit.atm) unit.atm =
      mkRat 1000000 1 :=
  ⟨C1_roundtrip_amended.1 unit.darcy (by decide) (mkRat (-1) 1) (by decide),
   C1_roundtrip_amended.2 unit.atm (by decide) (by decide) (by decide)⟩

/-- C2: `darcy`, computed through the five scratch constants, is exactly the
double nearest to `9.869232667160130e-13`, and in particular agrees with
that decimal value to (much better than) 12 significant digits: the
difference is at most `9.869232667160130e-13 * 1e-12` in both directions. -/
theorem C2_darcy_value :
    unit.darcy = dlit 9869232667160130 28 ∧
    qsub unit.darcy (mkRat 9869232667160130 (10 ^ 28)) ≤ mkRat 9869232667160130 (10 ^ 40) ∧
    qsub (mkRat 9869232667160130 (10 ^ 28)) unit.darcy ≤ mkRat 9869232667160130 (10 ^ 40) := by
  decide

/-- C3: the table-derived `feet = 12 * inch` (exactly the double `0.3048`)
differs from the independent secondary constant
`FEET = 0.30479999798832`. -/
theorem C3_feet_ne_FEET :
    unit.feet = fmul (dlit 12 0) unit.inch ∧
    unit.feet = dlit 3048 4 ∧
    units.FEET = dlit 30479999798832 14 ∧
    unit.feet ≠ units.FEET := by decide

/-- C4: the base units `meter`, `second`, `kilogram` all equal `1.0`, and
`from(1.0, u)` is the identity on each of them. -/
theorem C4_base_units_identity :
    unit.meter = mkRat 1 1 ∧ unit.second = mkRat 1 1 ∧ unit.kilogram = mkRat 1 1 ∧
    convert.fromExternal (mkRat 1 1) unit.meter = mkRat 1 1 ∧
    convert.fromExternal (mkRat 1 1) unit.second = mkRat 1 1 ∧
    convert.fromExternal (mkRat 1 1) unit.kilogram = mkRat 1 1 := by decide

/-- C5: no constant of the unit table is zero, so for every quantity `q` and
every table constant `u`, `to(q, u)` never takes the division-by-zero
failure branch (`toChecked` always succeeds on table constants). -/
theorem C5_to_no_zero_divisor :
    (∀ u ∈ tableUnits, u ≠ 0) ∧
    ∀ (q : ℚ), ∀ u ∈ tableUnits, (convert.toChecked q u).isSome = true := by
  have h0 : ∀ u ∈ tableUnits, u ≠ (0 : ℚ) := by decide
  refine ⟨h0, fun q u hu => ?_⟩
  unfold convert.toChecked
  rw [if_neg (h0 u hu)]
  rfl

/-- Witness for C5: `toChecked` succeeds at the concrete quantity `7/3` and
the table constant `psia`. -/
theorem C5_to_no_zero_divisor_witness :
    (convert.toChecked (mkRat 7 3) unit.psia).isSome = true :=
  C5_to_no_zero_divisor.2 (mkRat 7 3) unit.psia (by decide)

/-- C6: the pressure/force dependency chain holds numerically:
`psia == lbf / square(inch)`, `lbf == pound * gravity`,
`pound == 0.45359237 * kilogram`, `gravity == 9.80665 * meter /
square(second)`, with the exact binary64 values spelled out. -/
theorem C6_pressure_force_chain :
    unit.psia = fdiv unit.lbf (squareD unit.inch) ∧
    unit.lbf = fmul unit.pound unit.gravity ∧
    unit.pound = fmul (dlit 45359237 8) unit.kilogram ∧
    unit.gravity = fdiv (fmul (dlit 980665 5) unit.meter) (squareD unit.second) ∧
    unit.psia = mkRat 7580865814531991 1099511627776 ∧
    unit.lbf = mkRat 5008252302237143 1125899906842624 ∧
    unit.pound = mkRat 8171193714040401 18014398509481984 ∧
    unit.gravity = mkRat 5520653160719109 562949953421312 := by decide

/-- C7: the SI-derived constants `Newton`, `Pascal` and `Pas` all equal
exactly `1.0`. -/
theorem C7_SI_self_consistency :
    unit.Newton = mkRat 1 1 ∧ unit.Pascal = mkRat 1 1 ∧ unit.Pas = mkRat 1 1 := by decide

/-- C8 (counterexample): `inch` does NOT equal the double literal `0.0254`:
the rounded product `2.54 * centi * meter` lands one ulp above it. -/
theorem C8_inch_counterexample : unit.inch ≠ dlit 254 4 := by decide

/-- C8 (amended): `inch` equals the computed `2.54 * centi * meter`, which
is exactly one ulp (`2 ^ (-58)`) above the double literal `0.0254`; and
`feet == 12 * inch` exactly. -/
theorem C8_inch_feet_amended :
    unit.inch = fmul (fmul (dlit 254 2) prefixes.centi) unit.meter ∧
    unit.inch = mkRat 7321051554253479 288230376151711744 ∧
    qsub unit.inch (dlit 254 4) = mkRat 1 288230376151711744 ∧
    unit.feet = fmul (dlit 12 0) unit.inch := by decide

/-- C9: `square(v) = v * v` and `cubic(v) = v * v * v` for every value, with
no failure modes, and at doubles `square(3.0) == 9.0`, `cubic(2.0) == 8.0`,
`square(-2.0) == 4.0` (exact, since small integers round to themselves). -/
theorem C9_square_cubic :
    (∀ (v : ℚ), square v = v * v ∧ cubic v = v * v * v) ∧
    squareD (mkRat 3 1) = mkRat 9 1 ∧
    cubicD (mkRat 2 1) = mkRat 8 1 ∧
    squareD (mkRat (-2) 1) = mkRat 4 1 :=
  ⟨fun _ => ⟨rfl, rfl⟩, by decide, by decide, by decide⟩

/-- C10: the two constant groups agree on the length of a day:
`day = 24 * 60 * 60 * second = 86400` equals `DAYS2SECONDS = 86400`, and
`WELL_INDEX_UNIT = VISCOSITY_UNIT / (DAYS2SECONDS * 1e5) = 1e-3 / 8.64e9`
(the product `DAYS2SECONDS * 1e5` is exactly `8.64e9`). -/
theorem C10_day_seconds :
    unit.day = mkRat 86400 1 ∧
    units.DAYS2SECONDS = mkRat 86400 1 ∧
    unit.day = units.DAYS2SECONDS ∧
    units.WELL_INDEX_UNIT = fdiv units.VISCOSITY_UNIT (fmul units.DAYS2SECONDS (dlit 100000 0)) ∧
    fmul units.DAYS2SECONDS (dlit 100000 0) = mkRat 8640000000 1 ∧
    units.WELL_INDEX_UNIT = fdiv (dlit 1 3) (mkRat 8640000000 1) ∧
    units.WELL_INDEX_UNIT = mkRat 4584963108464371 39614081257132168796771975168 := by decide

end Dune
